import Mathlib

/-
Verification of the polling loop of `kol_moniter.py` / `monitor_kol_tweets.py`
(the two files share the same control flow; the Telegram variant additionally
forwards error messages to the sink, which we model via `errMsgs`).

The loop body of `monitor_tweets` is embedded as a pure function
`monitorCycle` over an explicit `MonitorState`; time values (`time.time()`)
become integer parameters supplied per cycle, and each fetch's HTTP outcome
becomes a `HttpResponse` input.  `runCycles` iterates the cycle over a list
of such inputs.
-/

namespace KolMonitor

/-- `RATE_LIMIT_REQUESTS = 15` (Twitter's limit), from the configuration block. -/
def RATE_LIMIT_REQUESTS : Nat := 15

/-- `RATE_LIMIT_WINDOW = 15 * 60` seconds, from the configuration block. -/
def RATE_LIMIT_WINDOW : Int := 15 * 60

/-- `CHECK_INTERVAL_MINS = 1` in `kol_moniter.py`. -/
def CHECK_INTERVAL_MINS : Nat := 1

/-- `CHECK_INTERVAL = CHECK_INTERVAL_MINS * 60`. -/
def CHECK_INTERVAL : Nat := CHECK_INTERVAL_MINS * 60

/-- A post record as returned by the search API: id, author id, text. -/
structure Tweet where
  id : String
  author_id : String
  text : String
deriving DecidableEq

/-- The HTTP outcome of one fetch: status code, response text, and the parsed
post list (meaningful when status is 200, mirroring `data.get('data', [])`). -/
structure HttpResponse where
  status : Nat
  text : String
  posts : List Tweet
deriving DecidableEq

/-- `get_latest_tweets_batch`: raises "Rate limit exceeded" on 429, a generic
failure carrying the response text on any other non-200 status, and returns
the parsed posts on 200. -/
def get_latest_tweets_batch (resp : HttpResponse) : Except String (List Tweet) :=
  if resp.status = 429 then Except.error "Rate limit exceeded"
  else if resp.status ≠ 200 then Except.error ("Failed to get tweets: " ++ resp.text)
  else Except.ok resp.posts

/-- Boolean test that `pat` starts the character list `s`. -/
def charsStartWith : List Char → List Char → Bool
  | [], _ => true
  | _ :: _, [] => false
  | a :: as, b :: bs => a == b && charsStartWith as bs

/-- Boolean test that `pat` occurs as a contiguous run inside `s`. -/
def charsContain (pat : List Char) : List Char → Bool
  | [] => charsStartWith pat []
  | c :: rest => charsStartWith pat (c :: rest) || charsContain pat rest

/-- Python's `pat in s` substring test on strings. -/
def strContains (s pat : String) : Bool :=
  charsContain pat.data s.data

/-- Python's `str.lower()` (ASCII case folding suffices for the messages the
loop classifies). -/
def strToLower (s : String) : String :=
  ⟨s.data.map Char.toLower⟩

/-- The loop's except-handler classification: `"rate limit" in str(e).lower()`. -/
def isRateLimitMsg (e : String) : Bool :=
  strContains (strToLower e) "rate limit"

/-- Python dict lookup returning `none` on a missing key (a `KeyError` site). -/
def dictGet : List (String × String) → String → Option String
  | [], _ => none
  | (a, b) :: rest, k => if a = k then some b else dictGet rest k

/-- `tweet_url = f"https://twitter.com/i/web/status/{tweet['id']}"`. -/
def tweet_url (id : String) : String :=
  "https://twitter.com/i/web/status/" ++ id

/-- The Telegram message body built for one new tweet. -/
def formatMessage (username text id : String) : String :=
  "🔔 New Tweet from @" ++ username ++ "!\n\n📝 " ++ text ++ "\n\n🔗 " ++ tweet_url id

/-- Result of the delivery for-loop: the dedup set afterwards, the sink
messages sent, the ids delivered (in order), and the `KeyError` message if the
author lookup raised mid-batch. -/
structure DeliverResult where
  seen : List String
  msgs : List String
  delivered : List String
  exc : Option String
deriving DecidableEq

/-- The `for tweet in tweets:` loop: a post id absent from `seen_tweets` is
added to the set first, then the author handle is looked up (raising `KeyError`
when absent, which aborts the rest of the batch), then the notification is
formatted and sent. -/
def deliverTweets (m : List (String × String)) :
    List Tweet → List String → DeliverResult
  | [], seen => { seen := seen, msgs := [], delivered := [], exc := none }
  | t :: rest, seen =>
    if t.id ∈ seen then
      deliverTweets m rest seen
    else
      match dictGet m t.author_id with
      | none =>
        { seen := t.id :: seen, msgs := [], delivered := [],
          exc := some ("'" ++ t.author_id ++ "'") }
      | some username =>
        let r := deliverTweets m rest (t.id :: seen)
        { seen := r.seen, msgs := formatMessage username t.text t.id :: r.msgs,
          delivered := t.id :: r.delivered, exc := r.exc }

/-- The loop's mutable state: `seen_tweets`, `requests_made`,
`window_start_time`. -/
structure MonitorState where
  seen_tweets : List String
  requests_made : Nat
  window_start_time : Int
deriving DecidableEq

/-- Per-cycle environment: `now` is `time.time()` at the top of the loop,
`resp` the HTTP outcome of the fetch (if one is attempted), `nowErr` the
clock when the except handler computes `wait_time`, and `nowReset` the clock
after the rate-limit wait (so in reality `now ≤ nowErr ≤ nowReset`). -/
structure CycleInput where
  now : Int
  resp : HttpResponse
  nowErr : Int
  nowReset : Int
deriving DecidableEq

/-- Observable outcome of one loop iteration. -/
structure CycleOutput where
  state : MonitorState
  sinkMsgs : List String
  delivered : List String
  errMsgs : List String
  fetched : Bool
  cleared : Bool
  errorSleep : Int
deriving DecidableEq

/-- The counter after the automatic window reset at the top of a cycle
(`if current_time - window_start_time >= RATE_LIMIT_WINDOW: requests_made = 0`). -/
def resetCounter (s : MonitorState) (now : Int) : Nat :=
  if RATE_LIMIT_WINDOW ≤ now - s.window_start_time then 0 else s.requests_made

/-- The window-start after the automatic window reset at the top of a cycle. -/
def resetWindowStart (s : MonitorState) (now : Int) : Int :=
  if RATE_LIMIT_WINDOW ≤ now - s.window_start_time then now else s.window_start_time

/-- One iteration of the `while True:` body of `monitor_tweets`, with the
except handler inlined: window reset, rate gate, fetch, `requests_made += 1`,
delivery loop, dedup-set clear when `len(seen_tweets) > 1000`, and on an
exception the rate-limit / generic classification with its wait and reset. -/
def monitorCycle (m : List (String × String)) (s : MonitorState)
    (inp : CycleInput) : CycleOutput :=
  let req0 := resetCounter s inp.now
  let ws0 := resetWindowStart s inp.now
  if req0 < RATE_LIMIT_REQUESTS then
    match get_latest_tweets_batch inp.resp with
    | Except.error e =>
      -- the fetch raised before `requests_made += 1`
      if isRateLimitMsg e then
        let wait := ws0 + RATE_LIMIT_WINDOW - inp.nowErr
        { state := ⟨s.seen_tweets, 0, inp.nowReset⟩,
          sinkMsgs := [], delivered := [],
          errMsgs := ["❌ Error: " ++ e],
          fetched := true, cleared := false,
          errorSleep := if 0 < wait then wait else 0 }
      else
        { state := ⟨s.seen_tweets, req0, ws0⟩,
          sinkMsgs := [], delivered := [],
          errMsgs := ["❌ Error: " ++ e],
          fetched := true, cleared := false,
          errorSleep := (CHECK_INTERVAL : Int) }
    | Except.ok tweets =>
      let d := deliverTweets m tweets s.seen_tweets
      match d.exc with
      | some e =>
        -- a KeyError mid-batch reaches the except handler; the size check is skipped
        if isRateLimitMsg e then
          let wait := ws0 + RATE_LIMIT_WINDOW - inp.nowErr
          { state := ⟨d.seen, 0, inp.nowReset⟩,
            sinkMsgs := d.msgs, delivered := d.delivered,
            errMsgs := ["❌ Error: " ++ e],
            fetched := true, cleared := false,
            errorSleep := if 0 < wait then wait else 0 }
        else
          { state := ⟨d.seen, req0 + 1, ws0⟩,
            sinkMsgs := d.msgs, delivered := d.delivered,
            errMsgs := ["❌ Error: " ++ e],
            fetched := true, cleared := false,
            errorSleep := (CHECK_INTERVAL : Int) }
      | none =>
        { state := ⟨if 1000 < d.seen.length then [] else d.seen, req0 + 1, ws0⟩,
          sinkMsgs := d.msgs, delivered := d.delivered, errMsgs := [],
          fetched := true, cleared := 1000 < d.seen.length,
          errorSleep := 0 }
  else
    { state := ⟨s.seen_tweets, req0, ws0⟩,
      sinkMsgs := [], delivered := [], errMsgs := [],
      fetched := false, cleared := false, errorSleep := 0 }

/-- Iterate the loop over a list of per-cycle environments, collecting the
final state and the per-cycle outcomes in order. -/
def runCycles (m : List (String × String)) (s : MonitorState) :
    List CycleInput → MonitorState × List CycleOutput
  | [] => (s, [])
  | i :: rest =>
    let o := monitorCycle m s i
    let r := runCycles m o.state rest
    (r.1, o :: r.2)

/-- Number of deliveries of post id `p` across a list of cycle outcomes. -/
def countDelivered (p : String) (outs : List CycleOutput) : Nat :=
  ((outs.map CycleOutput.delivered).flatten).count p


/-! ### General lemmas about the delivery loop and the cycle -/

lemma deliver_seen_mono (m : List (String × String)) (p : String) :
    ∀ (ts : List Tweet) (seen : List String), p ∈ seen → p ∈ (deliverTweets m ts seen).seen := by
  intro ts
  induction ts with
  | nil => intro seen hp; simpa [deliverTweets] using hp
  | cons t rest ih =>
    intro seen hp
    by_cases h : t.id ∈ seen
    · simpa [deliverTweets, h] using ih seen hp
    · cases hm : dictGet m t.author_id with
      | none => simp [deliverTweets, h, hm, hp]
      | some u =>
        simp only [deliverTweets, if_neg h, hm]
        exact ih _ (List.mem_cons_of_mem _ hp)

lemma deliver_seen_not_delivered (m : List (String × String)) (p : String) :
    ∀ (ts : List Tweet) (seen : List String), p ∈ seen →
      p ∉ (deliverTweets m ts seen).delivered := by
  intro ts
  induction ts with
  | nil => intro seen hp; simp [deliverTweets]
  | cons t rest ih =>
    intro seen hp
    by_cases h : t.id ∈ seen
    · simpa [deliverTweets, h] using ih seen hp
    · cases hm : dictGet m t.author_id with
      | none => simp [deliverTweets, h, hm]
      | some u =>
        have hne : p ≠ t.id := fun hpe => h (hpe ▸ hp)
        simp only [deliverTweets, if_neg h, hm, List.mem_cons]
        push_neg
        exact ⟨hne, ih _ (List.mem_cons_of_mem _ hp)⟩

lemma deliver_delivered_mem_seen (m : List (String × String)) (p : String) :
    ∀ (ts : List Tweet) (seen : List String),
      p ∈ (deliverTweets m ts seen).delivered → p ∈ (deliverTweets m ts seen).seen := by
  intro ts
  induction ts with
  | nil => intro seen hp; simp [deliverTweets] at hp
  | cons t rest ih =>
    intro seen hp
    by_cases h : t.id ∈ seen
    · simp only [deliverTweets, if_neg, if_pos h] at hp ⊢
      exact ih seen hp
    · cases hm : dictGet m t.author_id with
      | none => simp [deliverTweets, h, hm] at hp
      | some u =>
        simp only [deliverTweets, if_neg h, hm, List.mem_cons] at hp ⊢
        rcases hp with hp | hp
        · exact hp ▸ deliver_seen_mono m t.id rest _ (List.mem_cons_self _ _)
        · exact ih _ hp

lemma deliver_count_le_one (m : List (String × String)) (p : String) :
    ∀ (ts : List Tweet) (seen : List String),
      ((deliverTweets m ts seen).delivered).count p ≤ 1 := by
  intro ts
  induction ts with
  | nil => intro seen; simp [deliverTweets]
  | cons t rest ih =>
    intro seen
    by_cases h : t.id ∈ seen
    · simpa [deliverTweets, h] using ih seen
    · cases hm : dictGet m t.author_id with
      | none => simp [deliverTweets, h, hm]
      | some u =>
        simp only [deliverTweets, if_neg h, hm, List.count_cons]
        by_cases hpe : t.id = p
        · have h0 : ((deliverTweets m rest (t.id :: seen)).delivered).count p = 0 :=
            List.count_eq_zero.mpr
              (deliver_seen_not_delivered m p rest _ (hpe ▸ List.mem_cons_self _ _))
          subst hpe
          simp [h0]
        · have : (t.id == p) = false := beq_false_of_ne hpe
          simp [this]
          exact ih _
lemma deliver_exc_mem (m : List (String × String)) (e : String) :
    ∀ (ts : List Tweet) (seen : List String),
      (deliverTweets m ts seen).exc = some e →
      ∃ t, t ∈ ts ∧ dictGet m t.author_id = none ∧
        e = "'" ++ t.author_id ++ "'" ∧ t.id ∉ seen ∧
        t.id ∈ (deliverTweets m ts seen).seen ∧
        t.id ∉ (deliverTweets m ts seen).delivered := by
  intro ts
  induction ts with
  | nil => intro seen hp; simp [deliverTweets] at hp
  | cons t rest ih =>
    intro seen hp
    by_cases h : t.id ∈ seen
    · simp only [deliverTweets, if_pos h] at hp ⊢
      obtain ⟨t2, ht2, hrest⟩ := ih seen hp
      exact ⟨t2, List.mem_cons_of_mem _ ht2, hrest⟩
    · cases hm : dictGet m t.author_id with
      | none =>
        simp only [deliverTweets, if_neg h, hm] at hp ⊢
        refine ⟨t, List.mem_cons_self _ _, hm, ?_, h, ?_, ?_⟩
        · exact (Option.some_inj.mp hp).symm
        · simp
        · simp
      | some u =>
        simp only [deliverTweets, if_neg h, hm] at hp ⊢
        obtain ⟨t2, ht2, hnone, he, hnotin, hseen, hdel⟩ := ih (t.id :: seen) hp
        have hne : t2.id ≠ t.id := by
          intro hx
          exact hnotin (hx ▸ List.mem_cons_self _ _)
        refine ⟨t2, List.mem_cons_of_mem _ ht2, hnone, he,
          fun hx => hnotin (List.mem_cons_of_mem _ hx), hseen, ?_⟩
        simp only [List.mem_cons]
        push_neg
        exact ⟨hne, hdel⟩
lemma cycle_seen_not_delivered (m : List (String × String)) (s : MonitorState)
    (inp : CycleInput) (p : String) (hp : p ∈ s.seen_tweets) :
    p ∉ (monitorCycle m s inp).delivered := by
  unfold monitorCycle
  by_cases hg : resetCounter s inp.now < RATE_LIMIT_REQUESTS
  · simp only [if_pos hg]
    cases hb : get_latest_tweets_batch inp.resp with
    | error e =>
      by_cases hr : isRateLimitMsg e <;> simp [hr]
    | ok tweets =>
      cases hx : (deliverTweets m tweets s.seen_tweets).exc with
      | none => simpa [hx] using deliver_seen_not_delivered m p tweets _ hp
      | some e =>
        by_cases hr : isRateLimitMsg e <;>
          simpa [hx, hr] using deliver_seen_not_delivered m p tweets _ hp
  · simp [if_neg hg]
lemma cycle_seen_mono (m : List (String × String)) (s : MonitorState)
    (inp : CycleInput) (p : String)
    (hc : (monitorCycle m s inp).cleared = false) (hp : p ∈ s.seen_tweets) :
    p ∈ (monitorCycle m s inp).state.seen_tweets := by
  unfold monitorCycle at hc ⊢
  by_cases hg : resetCounter s inp.now < RATE_LIMIT_REQUESTS
  · simp only [if_pos hg] at hc ⊢
    cases hb : get_latest_tweets_batch inp.resp with
    | error e =>
      by_cases hr : isRateLimitMsg e <;> simp [hb, hr, hp]
    | ok tweets =>
      simp only [hb] at hc ⊢
      cases hx : (deliverTweets m tweets s.seen_tweets).exc with
      | none =>
        simp only [hx] at hc ⊢
        have hlen : ¬ (1000 < (deliverTweets m tweets s.seen_tweets).seen.length) := by
          simpa using hc
        simpa [hlen] using deliver_seen_mono m p tweets _ hp
      | some e =>
        by_cases hr : isRateLimitMsg e <;>
          simpa [hx, hr] using deliver_seen_mono m p tweets _ hp
  · simp [if_neg hg, hp]

lemma cycle_delivered_mem_seen (m : List (String × String)) (s : MonitorState)
    (inp : CycleInput) (p : String)
    (hc : (monitorCycle m s inp).cleared = false)
    (hp : p ∈ (monitorCycle m s inp).delivered) :
    p ∈ (monitorCycle m s inp).state.seen_tweets := by
  unfold monitorCycle at hc hp ⊢
  by_cases hg : resetCounter s inp.now < RATE_LIMIT_REQUESTS
  · simp only [if_pos hg] at hc hp ⊢
    cases hb : get_latest_tweets_batch inp.resp with
    | error e =>
      by_cases hr : isRateLimitMsg e <;> simp [hb, hr] at hp
    | ok tweets =>
      simp only [hb] at hc hp ⊢
      cases hx : (deliverTweets m tweets s.seen_tweets).exc with
      | none =>
        simp only [hx] at hc hp ⊢
        have hlen : ¬ (1000 < (deliverTweets m tweets s.seen_tweets).seen.length) := by
          simpa using hc
        simpa [hlen] using deliver_delivered_mem_seen m p tweets _ hp
      | some e =>
        by_cases hr : isRateLimitMsg e <;>
          simpa [hx, hr] using deliver_delivered_mem_seen m p tweets _ (by simpa [hx, hr] using hp)
  · simp [if_neg hg] at hp

lemma cycle_count_le_one (m : List (String × String)) (s : MonitorState)
    (inp : CycleInput) (p : String) :
    ((monitorCycle m s inp).delivered).count p ≤ 1 := by
  unfold monitorCycle
  by_cases hg : resetCounter s inp.now < RATE_LIMIT_REQUESTS
  · simp only [if_pos hg]
    cases hb : get_latest_tweets_batch inp.resp with
    | error e =>
      by_cases hr : isRateLimitMsg e <;> simp [hr]
    | ok tweets =>
      cases hx : (deliverTweets m tweets s.seen_tweets).exc with
      | none => simpa [hx] using deliver_count_le_one m p tweets _
      | some e =>
        by_cases hr : isRateLimitMsg e <;>
          simpa [hx, hr] using deliver_count_le_one m p tweets _
  · simp [if_neg hg]
lemma countDelivered_cons (p : String) (o : CycleOutput) (outs : List CycleOutput) :
    countDelivered p (o :: outs) = (o.delivered).count p + countDelivered p outs := by
  simp [countDelivered, List.count_append]

lemma run_seen_zero (m : List (String × String)) (p : String) :
    ∀ (inputs : List CycleInput) (s : MonitorState), p ∈ s.seen_tweets →
      (∀ o ∈ (runCycles m s inputs).2, o.cleared = false) →
      countDelivered p (runCycles m s inputs).2 = 0 := by
  intro inputs
  induction inputs with
  | nil => intro s _ _; simp [runCycles, countDelivered]
  | cons i rest ih =>
    intro s hp hall
    have hall0 : (monitorCycle m s i).cleared = false := by
      apply hall
      simp [runCycles]
    have hrest : ∀ o ∈ (runCycles m (monitorCycle m s i).state rest).2, o.cleared = false := by
      intro o ho
      apply hall
      simp [runCycles, ho]
    have h1 : ((monitorCycle m s i).delivered).count p = 0 :=
      List.count_eq_zero.mpr (cycle_seen_not_delivered m s i p hp)
    have h2 := ih (monitorCycle m s i).state (cycle_seen_mono m s i p hall0 hp) hrest
    simp [runCycles, countDelivered_cons, h1, h2]
lemma run_count_le_one (m : List (String × String)) (p : String) :
    ∀ (inputs : List CycleInput) (s : MonitorState),
      (∀ o ∈ (runCycles m s inputs).2, o.cleared = false) →
      countDelivered p (runCycles m s inputs).2 ≤ 1 := by
  intro inputs
  induction inputs with
  | nil => intro s _; simp [runCycles, countDelivered]
  | cons i rest ih =>
    intro s hall
    have hall0 : (monitorCycle m s i).cleared = false := by
      apply hall; simp [runCycles]
    have hrest : ∀ o ∈ (runCycles m (monitorCycle m s i).state rest).2, o.cleared = false := by
      intro o ho; apply hall; simp [runCycles, ho]
    rw [show (runCycles m s (i :: rest)).2
        = monitorCycle m s i :: (runCycles m (monitorCycle m s i).state rest).2 from rfl,
      countDelivered_cons]
    by_cases hmem : p ∈ (monitorCycle m s i).delivered
    · have h2 : countDelivered p (runCycles m (monitorCycle m s i).state rest).2 = 0 :=
        run_seen_zero m p rest _ (cycle_delivered_mem_seen m s i p hall0 hmem) hrest
      have h1 := cycle_count_le_one m s i p
      omega
    · have h1 : ((monitorCycle m s i).delivered).count p = 0 :=
        List.count_eq_zero.mpr hmem
      have h2 := ih (monitorCycle m s i).state hrest
      omega


/-! ### Shared concrete fixtures for witnesses -/

/-- The C5 handle map `{"a":"1","b":"2"}` inverted to id → handle, as
`id_to_username` is in the source. -/
def exMap : List (String × String) := [("1", "a"), ("2", "b")]

/-- The C5 post `{id:"p1", author_id:"1", text:"hi"}`. -/
def exTweet : Tweet := ⟨"p1", "1", "hi"⟩

/-- A successful fetch response returning exactly `exTweet`. -/
def exResp : HttpResponse := ⟨200, "", [exTweet]⟩

/-- The loop state right after startup: empty dedup set, zero requests. -/
def exState : MonitorState := ⟨[], 0, 0⟩

/-- A first cycle at clock 0 whose fetch returns `exTweet`. -/
def exInput : CycleInput := ⟨0, exResp, 0, 0⟩

/-- A second cycle one minute later whose fetch returns `exTweet` again. -/
def exInput2 : CycleInput := ⟨60, exResp, 60, 60⟩

/-- An id → handle map missing `exTweet`'s author id "1" (a `KeyError` case). -/
def exMapB : List (String × String) := [("2", "b")]

/-- A dedup set holding 1001 distinct post ids. -/
def exBigSeen : List String := (List.range 1001).map (fun n => toString n)

/-! ### Claim theorems -/

/-- C1: over any sequence of fetch responses processed by the polling loop,
each post id is delivered (sink call) at most once per process lifetime as
long as no cycle cleared the dedup set; in particular a second fetch cycle
returning an already-delivered post id produces zero additional sink calls
(see the witness, whose second cycle returns the same post and delivers
nothing). -/
theorem post_delivered_at_most_once (m : List (String × String)) (p : String)
    (inputs : List CycleInput) (s : MonitorState)
    (hnoclear : ∀ o ∈ (runCycles m s inputs).2, o.cleared = false) :
    countDelivered p (runCycles m s inputs).2 ≤ 1 :=
  run_count_le_one m p inputs s hnoclear

/-- Witness for C1: two cycles both fetching post `p1`; no clear happens,
`p1` is delivered exactly once, and the second cycle performs zero sink
calls. -/
theorem post_delivered_at_most_once_witness :
    (∀ o ∈ (runCycles exMap exState [exInput, exInput2]).2, o.cleared = false) ∧
    countDelivered "p1" (runCycles exMap exState [exInput, exInput2]).2 ≤ 1 ∧
    countDelivered "p1" (runCycles exMap exState [exInput, exInput2]).2 = 1 ∧
    ((runCycles exMap exState [exInput, exInput2]).2.map CycleOutput.sinkMsgs) =
      [[formatMessage "a" "hi" "p1"], []] :=
  ⟨by decide, post_delivered_at_most_once exMap "p1" [exInput, exInput2] exState (by decide),
    by decide, by decide⟩


/-- C2: the rate-window gate permits a fetch iff fewer than 15 requests have
been recorded since the last window reset (`resetCounter`, which is 0 when at
least `RATE_LIMIT_WINDOW` seconds have elapsed since window-start and the
recorded counter otherwise), and the automatic top-of-cycle reset sets the
counter to 0 and window-start to the current time exactly when ≥ 15 minutes
have elapsed. -/
theorem rate_gate_iff (m : List (String × String)) (s : MonitorState)
    (inp : CycleInput) :
    ((monitorCycle m s inp).fetched = true ↔
      resetCounter s inp.now < RATE_LIMIT_REQUESTS) ∧
    (RATE_LIMIT_WINDOW ≤ inp.now - s.window_start_time →
      resetCounter s inp.now = 0 ∧ resetWindowStart s inp.now = inp.now) ∧
    (¬ RATE_LIMIT_WINDOW ≤ inp.now - s.window_start_time →
      resetCounter s inp.now = s.requests_made ∧
      resetWindowStart s inp.now = s.window_start_time) := by
  refine ⟨?_, ?_, ?_⟩
  · unfold monitorCycle
    by_cases hg : resetCounter s inp.now < RATE_LIMIT_REQUESTS
    · simp only [if_pos hg, hg, iff_true]
      cases hb : get_latest_tweets_batch inp.resp with
      | error e => by_cases hr : isRateLimitMsg e <;> simp [hr]
      | ok tweets =>
        cases hx : (deliverTweets m tweets s.seen_tweets).exc with
        | none => simp [hx]
        | some e => by_cases hr : isRateLimitMsg e <;> simp [hx, hr]
    · simp [if_neg hg, hg]
  · intro h; simp [resetCounter, resetWindowStart, h]
  · intro h; simp [resetCounter, resetWindowStart, h]

/-- Witness for C2: applied at a state with 15 recorded requests inside a
fresh window (no fetch is permitted), discharging the implication hypotheses
at concrete times. -/
theorem rate_gate_iff_witness :
    ((monitorCycle exMap ⟨[], 15, 0⟩ ⟨60, exResp, 60, 60⟩).fetched = true ↔
      resetCounter ⟨[], 15, 0⟩ 60 < RATE_LIMIT_REQUESTS) ∧
    (resetCounter ⟨[], 15, 0⟩ 60 = 15 ∧
      (monitorCycle exMap ⟨[], 15, 0⟩ ⟨60, exResp, 60, 60⟩).fetched = false) ∧
    (resetCounter ⟨[], 15, 0⟩ 1000 = 0 ∧ resetWindowStart ⟨[], 15, 0⟩ 1000 = 1000) :=
  ⟨(rate_gate_iff exMap ⟨[], 15, 0⟩ ⟨60, exResp, 60, 60⟩).1,
    ⟨((rate_gate_iff exMap ⟨[], 15, 0⟩ ⟨60, exResp, 60, 60⟩).2.2 (by decide)).1, by decide⟩,
    (rate_gate_iff exMap ⟨[], 15, 0⟩ ⟨1000, exResp, 1000, 1000⟩).2.1 (by decide)⟩

/-- The request counter never leaves the range `0 ≤ requests_made ≤ 15`
across one cycle: it is incremented only under the gate
`requests_made < RATE_LIMIT_REQUESTS` and otherwise only reset to 0. -/
lemma cycle_requests_le (m : List (String × String)) (s : MonitorState)
    (inp : CycleInput) (h : s.requests_made ≤ RATE_LIMIT_REQUESTS) :
    (monitorCycle m s inp).state.requests_made ≤ RATE_LIMIT_REQUESTS := by
  have hr0 : resetCounter s inp.now ≤ RATE_LIMIT_REQUESTS := by
    unfold resetCounter; split <;> omega
  unfold monitorCycle
  by_cases hg : resetCounter s inp.now < RATE_LIMIT_REQUESTS
  · simp only [if_pos hg]
    cases hb : get_latest_tweets_batch inp.resp with
    | error e =>
      by_cases hrl : isRateLimitMsg e
      · simp [hrl]
      · simp [hrl]; omega
    | ok tweets =>
      cases hx : (deliverTweets m tweets s.seen_tweets).exc with
      | none => simp [hx]; omega
      | some e =>
        by_cases hrl : isRateLimitMsg e
        · simp [hx, hrl]
        · simp [hx, hrl]; omega
  · simp [if_neg hg]; omega

/-- C8: starting from a counter within `0 ≤ requests_made ≤ 15`, every state
the loop ever reaches (the state after each cycle, and the final one) still
satisfies `requests_made ≤ 15` — the counter is a `Nat` (so ≥ 0), is
incremented only when strictly below 15, and is otherwise only reset to 0, so
no window records more than 15 requests. -/
theorem requests_made_bounded (m : List (String × String)) :
    ∀ (inputs : List CycleInput) (s : MonitorState),
      s.requests_made ≤ RATE_LIMIT_REQUESTS →
      (runCycles m s inputs).1.requests_made ≤ RATE_LIMIT_REQUESTS ∧
      ∀ o ∈ (runCycles m s inputs).2,
        o.state.requests_made ≤ RATE_LIMIT_REQUESTS := by
  intro inputs
  induction inputs with
  | nil => intro s hs; simpa [runCycles] using hs
  | cons i rest ih =>
    intro s hs
    have h1 := cycle_requests_le m s i hs
    obtain ⟨hfin, hall⟩ := ih (monitorCycle m s i).state h1
    refine ⟨by simpa [runCycles] using hfin, ?_⟩
    intro o ho
    simp only [runCycles, List.mem_cons] at ho
    rcases ho with ho | ho
    · exact ho ▸ h1
    · exact hall o ho

/-- Witness for C8: the startup state (counter 0) run through two concrete
cycles stays within the bound. -/
theorem requests_made_bounded_witness :
    exState.requests_made ≤ RATE_LIMIT_REQUESTS ∧
    (runCycles exMap exState [exInput, exInput2]).1.requests_made ≤ RATE_LIMIT_REQUESTS :=
  ⟨by decide, (requests_made_bounded exMap [exInput, exInput2] exState (by decide)).1⟩


/-- C3: when the gate passed and the fetch came back with status 429 (so the
fetcher raised "Rate limit exceeded"), recovery completes with
`requests_made = 0` and `window_start_time` equal to the clock read at the
moment recovery completes (`nowReset`, hence no earlier than it); the wait
performed before resetting equals the remaining window time
`window-start + RATE_LIMIT_WINDOW - now`, and is skipped (0) when that
remainder is not positive. -/
theorem quota_exceeded_recovery (m : List (String × String)) (s : MonitorState)
    (inp : CycleInput)
    (hg : resetCounter s inp.now < RATE_LIMIT_REQUESTS)
    (h429 : inp.resp.status = 429) :
    (monitorCycle m s inp).state.requests_made = 0 ∧
    (monitorCycle m s inp).state.window_start_time = inp.nowReset ∧
    (monitorCycle m s inp).errorSleep =
      (if 0 < resetWindowStart s inp.now + RATE_LIMIT_WINDOW - inp.nowErr
       then resetWindowStart s inp.now + RATE_LIMIT_WINDOW - inp.nowErr
       else 0) ∧
    (monitorCycle m s inp).sinkMsgs = [] := by
  have hb : get_latest_tweets_batch inp.resp = Except.error "Rate limit exceeded" := by
    simp [get_latest_tweets_batch, h429]
  have hrl : isRateLimitMsg "Rate limit exceeded" = true := by decide
  unfold monitorCycle
  simp [if_pos hg, hb, hrl]

/-- Witness for C3: a 429 fetch at clock 100, 800 seconds of window left;
recovery resets the counter and waits out the remainder. -/
theorem quota_exceeded_recovery_witness :
    resetCounter ⟨[], 3, 0⟩ 100 < RATE_LIMIT_REQUESTS ∧
    ((monitorCycle exMap ⟨[], 3, 0⟩ ⟨100, ⟨429, "", []⟩, 100, 900⟩).state.requests_made = 0 ∧
     (monitorCycle exMap ⟨[], 3, 0⟩ ⟨100, ⟨429, "", []⟩, 100, 900⟩).state.window_start_time = 900 ∧
     (monitorCycle exMap ⟨[], 3, 0⟩ ⟨100, ⟨429, "", []⟩, 100, 900⟩).errorSleep =
       (if 0 < resetWindowStart ⟨[], 3, 0⟩ 100 + RATE_LIMIT_WINDOW - 100
        then resetWindowStart ⟨[], 3, 0⟩ 100 + RATE_LIMIT_WINDOW - 100 else 0) ∧
     (monitorCycle exMap ⟨[], 3, 0⟩ ⟨100, ⟨429, "", []⟩, 100, 900⟩).sinkMsgs = []) :=
  ⟨by decide,
    quota_exceeded_recovery exMap ⟨[], 3, 0⟩ ⟨100, ⟨429, "", []⟩, 100, 900⟩
      (by decide) (by decide)⟩

/-- C7: a fetch failure not classified as quota-exceeded is recovered inside
the loop: the error is reported to the sink (`errMsgs`), no tweet
notification is sent, the loop sleeps exactly one check interval
(`CHECK_INTERVAL` seconds), and the state is otherwise untouched — the cycle
function is total, so the loop proceeds to its next iteration rather than
terminating. -/
theorem transient_error_retry (m : List (String × String)) (s : MonitorState)
    (inp : CycleInput) (e : String)
    (hg : resetCounter s inp.now < RATE_LIMIT_REQUESTS)
    (hb : get_latest_tweets_batch inp.resp = Except.error e)
    (hnr : isRateLimitMsg e = false) :
    (monitorCycle m s inp).errMsgs = ["❌ Error: " ++ e] ∧
    (monitorCycle m s inp).sinkMsgs = [] ∧
    (monitorCycle m s inp).errorSleep = (CHECK_INTERVAL : Int) ∧
    (monitorCycle m s inp).state.seen_tweets = s.seen_tweets ∧
    (monitorCycle m s inp).state.requests_made = resetCounter s inp.now ∧
    (monitorCycle m s inp).state.window_start_time = resetWindowStart s inp.now := by
  unfold monitorCycle
  simp [if_pos hg, hb, hnr]

/-- Witness for C7: a 500 response with an innocuous body is recovered with a
one-interval (60 s) sleep and an error notification. -/
theorem transient_error_retry_witness :
    (monitorCycle exMap exState ⟨0, ⟨500, "oops", []⟩, 0, 0⟩).errMsgs =
      ["❌ Error: " ++ "Failed to get tweets: oops"] ∧
    (monitorCycle exMap exState ⟨0, ⟨500, "oops", []⟩, 0, 0⟩).sinkMsgs = [] ∧
    (monitorCycle exMap exState ⟨0, ⟨500, "oops", []⟩, 0, 0⟩).errorSleep = (CHECK_INTERVAL : Int) ∧
    (monitorCycle exMap exState ⟨0, ⟨500, "oops", []⟩, 0, 0⟩).state.seen_tweets = exState.seen_tweets ∧
    (monitorCycle exMap exState ⟨0, ⟨500, "oops", []⟩, 0, 0⟩).state.requests_made = resetCounter exState 0 ∧
    (monitorCycle exMap exState ⟨0, ⟨500, "oops", []⟩, 0, 0⟩).state.window_start_time = resetWindowStart exState 0 :=
  transient_error_retry exMap exState ⟨0, ⟨500, "oops", []⟩, 0, 0⟩
    "Failed to get tweets: oops" (by decide) rfl (by decide)

/-- C9: when the fetch raises (quota-exceeded or generic), the cycle leaves
the dedup set unchanged, delivers zero notifications, and does not increment
the request counter for the failed request — the counter is the post-reset
value on a generic failure and 0 on a quota-exceeded one, in both cases at
most the pre-fetch value. -/
theorem failed_fetch_no_effect (m : List (String × String)) (s : MonitorState)
    (inp : CycleInput) (e : String)
    (hg : resetCounter s inp.now < RATE_LIMIT_REQUESTS)
    (hb : get_latest_tweets_batch inp.resp = Except.error e) :
    (monitorCycle m s inp).sinkMsgs = [] ∧
    (monitorCycle m s inp).delivered = [] ∧
    (monitorCycle m s inp).state.seen_tweets = s.seen_tweets ∧
    (monitorCycle m s inp).state.requests_made =
      (if isRateLimitMsg e then 0 else resetCounter s inp.now) ∧
    (monitorCycle m s inp).state.requests_made ≤ resetCounter s inp.now := by
  unfold monitorCycle
  by_cases hrl : isRateLimitMsg e
  · simp [if_pos hg, hb, hrl]
  · simp [if_pos hg, hb, hrl]

/-- Witness for C9: a 404 fetch failure at a state with one recorded request
and a nonempty dedup set; nothing is delivered, the set and the counter are
unchanged. -/
theorem failed_fetch_no_effect_witness :
    (monitorCycle exMap ⟨["q"], 1, 0⟩ ⟨0, ⟨404, "gone", []⟩, 0, 0⟩).sinkMsgs = [] ∧
    (monitorCycle exMap ⟨["q"], 1, 0⟩ ⟨0, ⟨404, "gone", []⟩, 0, 0⟩).delivered = [] ∧
    (monitorCycle exMap ⟨["q"], 1, 0⟩ ⟨0, ⟨404, "gone", []⟩, 0, 0⟩).state.seen_tweets = ["q"] ∧
    (monitorCycle exMap ⟨["q"], 1, 0⟩ ⟨0, ⟨404, "gone", []⟩, 0, 0⟩).state.requests_made =
      (if isRateLimitMsg "Failed to get tweets: gone" then 0
       else resetCounter ⟨["q"], 1, 0⟩ 0) ∧
    (monitorCycle exMap ⟨["q"], 1, 0⟩ ⟨0, ⟨404, "gone", []⟩, 0, 0⟩).state.requests_made ≤
      resetCounter ⟨["q"], 1, 0⟩ 0 :=
  failed_fetch_no_effect exMap ⟨["q"], 1, 0⟩ ⟨0, ⟨404, "gone", []⟩, 0, 0⟩
    "Failed to get tweets: gone" (by decide) rfl


/-- C5: with handles `["a","b"]` resolved to `{"a":"1","b":"2"}` (so the
inverse id→handle map is `exMap`), a fetch returning exactly
`{id:"p1", author_id:"1", text:"hi"}` against an empty dedup set invokes the
sink exactly once, and the notification references handle "a", contains the
text "hi", and contains a permalink string containing "p1". -/
theorem concrete_single_delivery :
    (monitorCycle exMap exState exInput).sinkMsgs = [formatMessage "a" "hi" "p1"] ∧
    (monitorCycle exMap exState exInput).sinkMsgs.length = 1 ∧
    (monitorCycle exMap exState exInput).errMsgs = [] ∧
    strContains (formatMessage "a" "hi" "p1") "@a" = true ∧
    strContains (formatMessage "a" "hi" "p1") "hi" = true ∧
    strContains (formatMessage "a" "hi" "p1") (tweet_url "p1") = true ∧
    strContains (tweet_url "p1") "p1" = true :=
  ⟨rfl, rfl, rfl, rfl, rfl, rfl, rfl⟩

/-- C4: in a cycle whose delivery loop completes without raising, the dedup
set is cleared to empty exactly when its size after processing exceeds 1000
(1001 or more), so the next cycle starts from an empty set; at 1000 entries
or fewer it is left unchanged. -/
theorem dedup_set_clear_policy (m : List (String × String)) (s : MonitorState)
    (inp : CycleInput) (tweets : List Tweet)
    (hg : resetCounter s inp.now < RATE_LIMIT_REQUESTS)
    (hb : get_latest_tweets_batch inp.resp = Except.ok tweets)
    (hx : (deliverTweets m tweets s.seen_tweets).exc = none) :
    (1000 < (deliverTweets m tweets s.seen_tweets).seen.length →
      (monitorCycle m s inp).state.seen_tweets = [] ∧
      (monitorCycle m s inp).cleared = true) ∧
    ((deliverTweets m tweets s.seen_tweets).seen.length ≤ 1000 →
      (monitorCycle m s inp).state.seen_tweets =
        (deliverTweets m tweets s.seen_tweets).seen ∧
      (monitorCycle m s inp).cleared = false) := by
  unfold monitorCycle
  simp only [if_pos hg, hb, hx]
  constructor
  · intro hlen; simp [hlen]
  · intro hlen
    have hno : ¬ (1000 < (deliverTweets m tweets s.seen_tweets).seen.length) := by omega
    simp [hno]

/-- Witness for C4: a cycle starting from a 1001-entry dedup set whose fetch
returns no posts clears the set to empty. -/
theorem dedup_set_clear_policy_witness :
    (monitorCycle exMap ⟨exBigSeen, 0, 0⟩ ⟨0, ⟨200, "", []⟩, 0, 0⟩).state.seen_tweets = [] ∧
    (monitorCycle exMap ⟨exBigSeen, 0, 0⟩ ⟨0, ⟨200, "", []⟩, 0, 0⟩).cleared = true :=
  (dedup_set_clear_policy exMap ⟨exBigSeen, 0, 0⟩ ⟨0, ⟨200, "", []⟩, 0, 0⟩ []
    (by decide) rfl rfl).1 (by simp [deliverTweets, exBigSeen])

/-- Two distinct literal failure messages are never equal (their lengths
differ), so a non-429 failure is never reported as the rate-limit marker. -/
lemma failedMsg_ne (t : String) :
    "Failed to get tweets: " ++ t ≠ "Rate limit exceeded" := by
  intro h
  have hl := congrArg String.length h
  rw [String.length_append] at hl
  have h1 : ("Failed to get tweets: " : String).length = 22 := rfl
  have h2 : ("Rate limit exceeded" : String).length = 19 := rfl
  omega

/-- C6: the fetcher raises the rate-limit marker "Rate limit exceeded"
exactly when the response status is 429; every other non-200 status raises a
generic failure carrying the response text; and the loop's classifier treats
a message as quota-exceeded iff it contains "rate limit" case-insensitively —
so a generic failure whose response text happens to contain that substring is
also classified as quota-exceeded, while other generic failures are not. -/
theorem fetch_error_classification (resp : HttpResponse) :
    (get_latest_tweets_batch resp = Except.error "Rate limit exceeded" ↔
      resp.status = 429) ∧
    (resp.status ≠ 429 → resp.status ≠ 200 →
      get_latest_tweets_batch resp =
        Except.error ("Failed to get tweets: " ++ resp.text)) ∧
    (∀ e : String, isRateLimitMsg e = strContains (strToLower e) "rate limit") ∧
    isRateLimitMsg "Rate limit exceeded" = true ∧
    isRateLimitMsg ("Failed to get tweets: " ++ "Daily rate limit reached") = true ∧
    isRateLimitMsg "Failed to get tweets: server overloaded" = false := by
  refine ⟨⟨?_, ?_⟩, ?_, fun e => rfl, by decide, by decide, by decide⟩
  · intro h
    by_contra h429
    unfold get_latest_tweets_batch at h
    rw [if_neg h429] at h
    by_cases h200 : resp.status = 200
    · simp [h200] at h
    · rw [if_pos h200] at h
      exact failedMsg_ne resp.text (Except.error.inj h)
  · intro h429
    simp [get_latest_tweets_batch, h429]
  · intro h429 h200
    simp [get_latest_tweets_batch, h429, h200]

/-- Witness for C6: at a concrete 429 response both directions of the iff
hold; a concrete 500 response yields the generic failure; the classifier
accepts a generic failure body mentioning a rate limit. -/
theorem fetch_error_classification_witness :
    get_latest_tweets_batch ⟨429, "slow down", []⟩ = Except.error "Rate limit exceeded" ∧
    get_latest_tweets_batch ⟨500, "oops", []⟩ =
      Except.error ("Failed to get tweets: " ++ "oops") ∧
    isRateLimitMsg ("Failed to get tweets: " ++ "Daily rate limit reached") = true :=
  ⟨(fetch_error_classification ⟨429, "slow down", []⟩).1.mpr (by decide),
    (fetch_error_classification ⟨500, "oops", []⟩).2.1 (by decide) (by decide),
    (fetch_error_classification ⟨500, "oops", []⟩).2.2.2.2.1⟩

/-- C10: in the delivery phase a new post's id is inserted into the dedup set
before the author lookup and the sink call; hence when the lookup raises
(`KeyError`, the author id being absent from the handle map), the failing
post's id is in the dedup set at the end of the cycle, it was never
delivered, the set is not cleared that cycle, and as long as no later cycle
clears the set the post is never delivered in any later cycle. -/
theorem insert_before_deliver (m : List (String × String)) (s : MonitorState)
    (inp : CycleInput) (e : String)
    (hg : resetCounter s inp.now < RATE_LIMIT_REQUESTS)
    (h200 : inp.resp.status = 200)
    (hexc : (deliverTweets m inp.resp.posts s.seen_tweets).exc = some e) :
    ∃ t, t ∈ inp.resp.posts ∧ dictGet m t.author_id = none ∧
      e = "'" ++ t.author_id ++ "'" ∧
      t.id ∈ (monitorCycle m s inp).state.seen_tweets ∧
      t.id ∉ (monitorCycle m s inp).delivered ∧
      (monitorCycle m s inp).cleared = false ∧
      ∀ (inputs : List CycleInput),
        (∀ o ∈ (runCycles m (monitorCycle m s inp).state inputs).2,
          o.cleared = false) →
        countDelivered t.id (runCycles m (monitorCycle m s inp).state inputs).2 = 0 := by
  have hb : get_latest_tweets_batch inp.resp = Except.ok inp.resp.posts := by
    simp [get_latest_tweets_batch, h200]
  obtain ⟨t, ht, hnone, he, hnotin, hseen, hdel⟩ :=
    deliver_exc_mem m e inp.resp.posts s.seen_tweets hexc
  have hout : (monitorCycle m s inp).state.seen_tweets =
      (deliverTweets m inp.resp.posts s.seen_tweets).seen ∧
      (monitorCycle m s inp).delivered =
        (deliverTweets m inp.resp.posts s.seen_tweets).delivered ∧
      (monitorCycle m s inp).cleared = false := by
    unfold monitorCycle
    simp only [if_pos hg, hb, hexc]
    by_cases hrl : isRateLimitMsg e <;> simp [hrl]
  refine ⟨t, ht, hnone, he, ?_, ?_, hout.2.2, ?_⟩
  · rw [hout.1]; exact hseen
  · rw [hout.2.1]; exact hdel
  · intro inputs hall
    exact run_seen_zero m t.id inputs _ (by rw [hout.1]; exact hseen) hall

/-- Witness for C10: the map `exMapB` lacks author id "1", so delivering
`exTweet` raises; its id "p1" is retained in the dedup set yet never
delivered. -/
theorem insert_before_deliver_witness :
    ∃ t, t ∈ exInput.resp.posts ∧ dictGet exMapB t.author_id = none ∧
      "'1'" = "'" ++ t.author_id ++ "'" ∧
      t.id ∈ (monitorCycle exMapB exState exInput).state.seen_tweets ∧
      t.id ∉ (monitorCycle exMapB exState exInput).delivered ∧
      (monitorCycle exMapB exState exInput).cleared = false ∧
      ∀ (inputs : List CycleInput),
        (∀ o ∈ (runCycles exMapB (monitorCycle exMapB exState exInput).state inputs).2,
          o.cleared = false) →
        countDelivered t.id
          (runCycles exMapB (monitorCycle exMapB exState exInput).state inputs).2 = 0 :=
  insert_before_deliver exMapB exState exInput "'1'" (by decide) (by decide) rfl

end KolMonitor
